import Mathlib

/-!
# Verification of the tagged-resource registry and camera controller

Shallow embedding of the two components of the Sample-OpenGL-Project
repository specified in its design document:

* the resource registry of `Source/SceneManager.cpp`
  (`CreateGLTexture`, `FindTextureSlot`, `FindMaterial`,
  `DefineObjectMaterials`), and
* the camera controller of `Source/ViewManager.cpp`
  (`Mouse_Position_Callback`, `scroll_callback`,
  `ProcessKeyboardEvents`, `PrepareSceneView`).

C++ `float`/`double` scalars are embedded as `ℚ` (the handlers only add,
scale by constants and compare, so the clamping logic is exact), except
for the trigonometric recomputation of the camera front vector, which is
embedded over `ℝ`.  GPU, windowing and image-decoding collaborators are
out of scope; their results (decoded image header, key states, cursor
positions) are passed in as explicit inputs.
-/

/-! ## Resource registry: materials (SceneManager.cpp lines 214-241, 411-452) -/

/-- The material record.  The struct itself is declared in the class
header (not part of the sources); its fields are exactly the ones read
and written by `SceneManager.cpp` (`FindMaterial`,
`DefineObjectMaterials`) and listed in the design document §3. -/
structure OBJECT_MATERIAL where
  ambientColor : ℚ × ℚ × ℚ
  ambientStrength : ℚ
  diffuseColor : ℚ × ℚ × ℚ
  specularColor : ℚ × ℚ × ℚ
  shininess : ℚ
  tag : String
deriving DecidableEq, Repr

/-- The scan loop of `SceneManager::FindMaterial` (lines 221-238): walk
`m_objectMaterials` from index 0; on the first entry whose `tag` compares
equal, copy its five value fields into the output parameter `material`
(the `tag` field of the output is not written) and stop; otherwise leave
the output parameter untouched. -/
def FindMaterialLoop : List OBJECT_MATERIAL → String → OBJECT_MATERIAL → OBJECT_MATERIAL
  | [], _, material => material
  | entry :: rest, tag, material =>
    if entry.tag = tag then
      { material with
        ambientColor := entry.ambientColor
        ambientStrength := entry.ambientStrength
        diffuseColor := entry.diffuseColor
        specularColor := entry.specularColor
        shininess := entry.shininess }
    else
      FindMaterialLoop rest tag material

/-- `SceneManager::FindMaterial` (SceneManager.cpp lines 214-241).
Returns the C++ `bool` result together with the final value of the
by-reference output parameter `material`.  The function returns `false`
only when `m_objectMaterials` is empty (line 216); after the scan loop it
returns `true` unconditionally (line 240), whether or not a match was
found. -/
def FindMaterial (objectMaterials : List OBJECT_MATERIAL) (tag : String)
    (material : OBJECT_MATERIAL) : Bool × OBJECT_MATERIAL :=
  if objectMaterials.length = 0 then
    (false, material)
  else
    (true, FindMaterialLoop objectMaterials tag material)

/-- `SceneManager::DefineObjectMaterials` (SceneManager.cpp lines
411-452): the four materials pushed onto `m_objectMaterials`, with the
exact numeric values from the source. -/
def DefineObjectMaterials : List OBJECT_MATERIAL :=
  [ { ambientColor := (1/10, 1/10, 1/10)
      ambientStrength := 1/2
      diffuseColor := (1/5, 1/5, 3/10)
      specularColor := (4/5, 4/5, 1)
      shininess := 1
      tag := "table" },
    { ambientColor := (1/10, 1/10, 1/10)
      ambientStrength := 1/10
      diffuseColor := (1/5, 1/5, 1/5)
      specularColor := (1/10, 1/10, 1/10)
      shininess := 32
      tag := "blackPlastic" },
    { ambientColor := (3/10, 3/10, 3/10)
      ambientStrength := 3/10
      diffuseColor := (3/10, 3/10, 3/10)
      specularColor := (3/10, 3/10, 3/10)
      shininess := 32
      tag := "greyPlastic" },
    { ambientColor := (1/5, 1/5, 1/5)
      ambientStrength := 4/5
      diffuseColor := (2/5, 2/5, 1/2)
      specularColor := (1, 1, 1)
      shininess := 256
      tag := "screen" } ]

/-! ## Resource registry: textures (SceneManager.cpp lines 60-124, 188-206) -/

/-- One entry of the `m_textureIDs` registry array.  The struct is
declared in the class header (not part of the sources); `CreateGLTexture`
writes its `ID` and `tag` fields (lines 113-114) and the lookup methods
read them.  The 16-slot capacity bound (spec §4.1) is not modelled: no
claim concerns it. -/
structure TEXTURE_INFO where
  ID : Nat
  tag : String
deriving DecidableEq, Repr

/-- The header of a decoded image as produced by the image-decoding
collaborator (`stbi_load`): width, height and channel count. -/
structure ImageData where
  width : Int
  height : Int
  colorChannels : Int
deriving DecidableEq, Repr

/-- `SceneManager::CreateGLTexture` (SceneManager.cpp lines 60-124),
with the decode result passed in (`none` models `stbi_load` returning
null) and the fresh GL texture name `textureID` passed in for the GPU
collaborator.  Control flow of the source: on decode failure return
`false` (line 123) registering nothing; on success, upload for 3-channel
(line 95) or 4-channel (line 98) images, otherwise return `false`
immediately (line 102) registering nothing; after a successful upload,
append `{ID, tag}` at index `m_loadedTextures` and increment the count
(lines 113-115), returning `true`. -/
def CreateGLTexture (textureIDs : List TEXTURE_INFO) (decoded : Option ImageData)
    (textureID : Nat) (tag : String) : Bool × List TEXTURE_INFO :=
  match decoded with
  | some image =>
    if image.colorChannels = 3 then
      (true, textureIDs ++ [{ ID := textureID, tag := tag }])
    else if image.colorChannels = 4 then
      (true, textureIDs ++ [{ ID := textureID, tag := tag }])
    else
      (false, textureIDs)
  | none => (false, textureIDs)

/-- The scan loop of `SceneManager::FindTextureSlot` (lines 194-203),
with the running `index` counter as accumulator: return the index of the
first entry whose tag matches, or the initial sentinel `-1` if none
does. -/
def FindTextureSlotLoop : List TEXTURE_INFO → String → Nat → Int
  | [], _, _ => -1
  | entry :: rest, tag, index =>
    if entry.tag = tag then (index : Int)
    else FindTextureSlotLoop rest tag (index + 1)

/-- `SceneManager::FindTextureSlot` (SceneManager.cpp lines 188-206):
linear scan from index 0, first match wins, sentinel `-1` when the tag is
absent. -/
def FindTextureSlot (textureIDs : List TEXTURE_INFO) (tag : String) : Int :=
  FindTextureSlotLoop textureIDs tag 0

/-! ## Camera controller: mouse handling (ViewManager.cpp lines 135-181) -/

/-- The mouse-processing globals of `ViewManager.cpp` (lines 31-44):
last-seen cursor coordinates, the first-sample flag, and the Euler
angles.  Initial values in the source: `gLastX = 500`, `gLastY = 400`,
`gFirstMouse = true`, `yaw = -90`, `pitch = 0`. -/
structure MouseState where
  gLastX : ℚ
  gLastY : ℚ
  gFirstMouse : Bool
  yaw : ℚ
  pitch : ℚ
deriving DecidableEq, Repr

/-- The angle-updating part of `ViewManager::Mouse_Position_Callback`
(ViewManager.cpp lines 135-173): early return when
`perspectiveProjection` is `false` (lines 141-144); on the first sample
seed the last-seen coordinates from the current sample (lines 147-152)
and continue; compute the offsets, update the last-seen coordinates,
scale by the sensitivity `0.1` (lines 155-163); add the offsets to `yaw`
and `pitch` and clamp `pitch` to at most `89` and then at least `-89`
(lines 166-173). -/
def Mouse_Position_Callback (perspectiveProjection : Bool) (st : MouseState)
    (xpos ypos : ℚ) : MouseState :=
  if perspectiveProjection = false then st
  else
    let st1 := if st.gFirstMouse then
        { st with gLastX := xpos, gLastY := ypos, gFirstMouse := false }
      else st
    let xoffset := xpos - st1.gLastX
    let yoffset := st1.gLastY - ypos
    let sensitivity : ℚ := 1/10
    let xoffset := xoffset * sensitivity
    let yoffset := yoffset * sensitivity
    let yaw1 := st1.yaw + xoffset
    let pitch1 := st1.pitch + yoffset
    let pitch2 := if pitch1 > 89 then 89 else pitch1
    let pitch3 := if pitch2 < -89 then -89 else pitch2
    { st1 with gLastX := xpos, gLastY := ypos, yaw := yaw1, pitch := pitch3 }

/-- A 3-component real vector, standing in for `glm::vec3`. -/
structure Vec3 where
  x : ℝ
  y : ℝ
  z : ℝ

noncomputable def vadd (a b : Vec3) : Vec3 := ⟨a.x + b.x, a.y + b.y, a.z + b.z⟩

noncomputable def vsub (a b : Vec3) : Vec3 := ⟨a.x - b.x, a.y - b.y, a.z - b.z⟩

noncomputable def vscale (c : ℝ) (v : Vec3) : Vec3 := ⟨c * v.x, c * v.y, c * v.z⟩

/-- `glm::cross`. -/
noncomputable def cross (a b : Vec3) : Vec3 :=
  ⟨a.y * b.z - a.z * b.y, a.z * b.x - a.x * b.z, a.x * b.y - a.y * b.x⟩

/-- The Euclidean length of a `Vec3`. -/
noncomputable def norm3 (v : Vec3) : ℝ := Real.sqrt (v.x ^ 2 + v.y ^ 2 + v.z ^ 2)

/-- `glm::normalize`: divide each component by the length. -/
noncomputable def normalize3 (v : Vec3) : Vec3 :=
  ⟨v.x / norm3 v, v.y / norm3 v, v.z / norm3 v⟩

/-- `glm::radians`: degrees to radians. -/
noncomputable def radians (degrees : ℚ) : ℝ := (degrees : ℝ) * Real.pi / 180

/-- The direction vector computed at ViewManager.cpp lines 176-179 from
the updated `yaw` and `pitch`:
`(cos yaw * cos pitch, sin pitch, sin yaw * cos pitch)`. -/
noncomputable def directionVec (yaw pitch : ℚ) : Vec3 :=
  ⟨Real.cos (radians yaw) * Real.cos (radians pitch),
   Real.sin (radians pitch),
   Real.sin (radians yaw) * Real.cos (radians pitch)⟩

/-- The `g_pCamera->Front` value written by
`ViewManager::Mouse_Position_Callback` (line 180): unchanged on the
early return, otherwise `glm::normalize` of the direction vector built
from the updated angles. -/
noncomputable def Mouse_Position_Callback_Front (perspectiveProjection : Bool)
    (st : MouseState) (xpos ypos : ℚ) (front : Vec3) : Vec3 :=
  if perspectiveProjection = false then front
  else
    let st2 := Mouse_Position_Callback perspectiveProjection st xpos ypos
    normalize3 (directionVec st2.yaw st2.pitch)

/-! ## Camera controller: scroll handling (ViewManager.cpp lines 188-201) -/

/-- `ViewManager::scroll_callback` (ViewManager.cpp lines 188-201),
expressed as the update it performs on `g_pCamera->MovementSpeed`:
add `yoffset * 0.1`; if the result is below `0.1` set it to `0.1`
(line 197); if the result then exceeds `20.0` set it to `10.0`
(line 199). -/
def scroll_callback (movementSpeed : ℚ) (yoffset : ℚ) : ℚ :=
  let speed1 := movementSpeed + yoffset * (1/10)
  let speed2 := if speed1 < 1/10 then 1/10 else speed1
  if speed2 > 20 then 10 else speed2

/-! ## Camera controller: keyboard and per-frame update
(ViewManager.cpp lines 209-270, 279-325) -/

/-- The polled key states consumed by
`ViewManager::ProcessKeyboardEvents` (`glfwGetKey(...) == GLFW_PRESS`
for each key the method checks). -/
structure KeyState where
  escapeKey : Bool
  pKey : Bool
  oKey : Bool
  wKey : Bool
  sKey : Bool
  aKey : Bool
  dKey : Bool
  qKey : Bool
  eKey : Bool
deriving DecidableEq, Repr

/-- The fields of the external `Camera` object that the sources read and
write: `Position`, `Front`, `Up`, `Zoom` and `MovementSpeed`
(constructor defaults at ViewManager.cpp lines 60-63: position
`(0, 3.3, 12)`, front `(0, -0.5, -2)`, up `(0, 1, 0)`, zoom `80`). -/
structure CameraState where
  Position : Vec3
  Front : Vec3
  Up : Vec3
  Zoom : ℚ
  MovementSpeed : ℚ

/-- The movement block of `ViewManager::ProcessKeyboardEvents`
(ViewManager.cpp lines 236-268): sequential position updates for W/S
(along `Front`), A/D (along `normalize(cross(Front, Up))`) and Q/E
(along `Up`), each scaled by the frame's `cameraSpeed`. -/
noncomputable def moveCamera (keys : KeyState) (cameraSpeed : ℝ)
    (camera : CameraState) : CameraState :=
  let pos0 := camera.Position
  let pos1 := if keys.wKey then vadd pos0 (vscale cameraSpeed camera.Front) else pos0
  let pos2 := if keys.sKey then vsub pos1 (vscale cameraSpeed camera.Front) else pos1
  let pos3 := if keys.aKey then
      vsub pos2 (vscale cameraSpeed (normalize3 (cross camera.Front camera.Up)))
    else pos2
  let pos4 := if keys.dKey then
      vadd pos3 (vscale cameraSpeed (normalize3 (cross camera.Front camera.Up)))
    else pos3
  let pos5 := if keys.qKey then vadd pos4 (vscale cameraSpeed camera.Up) else pos4
  let pos6 := if keys.eKey then vsub pos5 (vscale cameraSpeed camera.Up) else pos5
  { camera with Position := pos6 }

/-- `ViewManager::ProcessKeyboardEvents` (ViewManager.cpp lines
209-270), returning the new `perspectiveProjection` flag and camera.
P sets the flag to `true` (line 226); O then sets it to `false`
(line 230) — two independent `if`s in that order, no `else` between
them.  Movement runs only when the resulting flag is `true` (lines
234-269), with `cameraSpeed = MovementSpeed * gDeltaTime` (line 236).
The Escape-key window-close request (lines 212-215) and the null-camera
guard (lines 218-221) have no effect on the state modelled here. -/
noncomputable def ProcessKeyboardEvents (keys : KeyState) (gDeltaTime : ℝ)
    (perspectiveProjection : Bool) (camera : CameraState) : Bool × CameraState :=
  let persp1 := if keys.pKey then true else perspectiveProjection
  let persp2 := if keys.oKey then false else persp1
  if persp2 then
    (persp2, moveCamera keys ((camera.MovementSpeed : ℝ) * gDeltaTime) camera)
  else
    (persp2, camera)

/-- The argument tuple of a `glm::perspective` call: vertical field of
view (recorded in degrees; the source passes `glm::radians(fovyDeg)`),
aspect ratio, and near/far plane distances. -/
structure GlmPerspective where
  fovyDeg : ℚ
  aspect : ℚ
  zNear : ℚ
  zFar : ℚ
deriving DecidableEq, Repr

/-- `ViewManager::PrepareSceneView` (ViewManager.cpp lines 279-325),
with the per-frame delta time passed in: process keyboard events
(line 291); if the resulting `perspectiveProjection` flag is `false`,
compute a projection `glm::perspective(radians(45), 1000/800, 0.1, 100)`
(lines 300-304) and reset the camera `Position`/`Front`/`Up` to
`(0,5,14)` / `(0,-0.2,-1)` / `(0,1,0)` (lines 307-309); then assign the
projection unconditionally from the camera zoom (line 313), overwriting
the branch's value (kept here as the dead `_orthoProjection` binding).
Returns the flag, the camera, and the projection uploaded to the
shader. -/
noncomputable def PrepareSceneView (keys : KeyState) (gDeltaTime : ℝ)
    (perspectiveProjection : Bool) (camera : CameraState) :
    Bool × CameraState × GlmPerspective :=
  let r := ProcessKeyboardEvents keys gDeltaTime perspectiveProjection camera
  let persp2 := r.1
  let camera1 := r.2
  let _orthoProjection : Option GlmPerspective :=
    if persp2 = false then some (GlmPerspective.mk 45 (1000/800) (1/10) 100) else none
  let camera2 :=
    if persp2 = false then
      { camera1 with
        Position := ⟨0, 5, 14⟩
        Front := ⟨0, -(1/5), -1⟩
        Up := ⟨0, 1, 0⟩ }
    else camera1
  let projection := GlmPerspective.mk camera2.Zoom (1000/800) (1/10) 100
  (persp2, camera2, projection)

/-- An arbitrary caller-supplied value for the by-reference output
parameter of `FindMaterial` (in the source the caller passes an
uninitialized local `OBJECT_MATERIAL`). -/
def callerMaterial : OBJECT_MATERIAL :=
  { ambientColor := (0, 0, 0)
    ambientStrength := 0
    diffuseColor := (0, 0, 0)
    specularColor := (0, 0, 0)
    shininess := 0
    tag := "caller" }

/-! ## Helper lemmas -/

theorem FindMaterialLoop_no_match (tag : String) (material : OBJECT_MATERIAL) :
    ∀ mats : List OBJECT_MATERIAL, (∀ e ∈ mats, e.tag ≠ tag) →
      FindMaterialLoop mats tag material = material := by
  intro mats
  induction mats with
  | nil => intro _; rfl
  | cons entry rest ih =>
    intro h
    simp only [FindMaterialLoop]
    rw [if_neg (h entry (List.mem_cons_self entry rest))]
    exact ih fun e he => h e (List.mem_cons_of_mem entry he)

theorem FindTextureSlotLoop_no_match (tag : String) :
    ∀ (l : List TEXTURE_INFO) (index : Nat), (∀ e ∈ l, e.tag ≠ tag) →
      FindTextureSlotLoop l tag index = -1 := by
  intro l
  induction l with
  | nil => intro _ _; rfl
  | cons entry rest ih =>
    intro index h
    simp only [FindTextureSlotLoop]
    rw [if_neg (h entry (List.mem_cons_self entry rest))]
    exact ih (index + 1) fun e he => h e (List.mem_cons_of_mem entry he)

theorem FindTextureSlotLoop_first_match (tag : String) :
    ∀ (l : List TEXTURE_INFO) (i index : Nat) (h : i < l.length),
      (l.get ⟨i, h⟩).tag = tag →
      tag ∉ (l.take i).map TEXTURE_INFO.tag →
      FindTextureSlotLoop l tag index = (index : Int) + (i : Int) := by
  intro l
  induction l with
  | nil => intro i _ h; exact absurd h (Nat.not_lt_zero i)
  | cons entry rest ih =>
    intro i index h hget htake
    cases i with
    | zero =>
      simp only [List.get] at hget
      simp [FindTextureSlotLoop, hget]
    | succ i =>
      have hne : entry.tag ≠ tag := by
        intro hc
        exact htake (by simp [List.take_succ_cons, hc])
      simp only [FindTextureSlotLoop]
      rw [if_neg hne]
      have hrest :
          FindTextureSlotLoop rest tag (index + 1) = ((index + 1 : Nat) : Int) + (i : Int) := by
        refine ih i (index + 1) (Nat.lt_of_succ_lt_succ h) ?_ ?_
        · simpa using hget
        · intro hc
          refine htake ?_
          rw [List.take_succ_cons, List.map_cons]
          exact List.mem_cons_of_mem _ hc
      rw [hrest]
      push_cast
      ring

/-! ## Claim theorems -/

/-- C1 (code bug exhibit): the claim — and the design document — say an
unregistered material tag yields "not found", yet `FindMaterial`,
evaluated on the scene's own catalogue from `DefineObjectMaterials` with
the absent tag `"wood"`, returns `true` while leaving the output
parameter unmodified.  (The caller `SetShaderMaterial` tests this return
value expecting it to mean "found".) -/
theorem c1_findMaterial_miss_still_returns_true :
    (FindMaterial DefineObjectMaterials "wood" callerMaterial).1 = true ∧
    (FindMaterial DefineObjectMaterials "wood" callerMaterial).2 = callerMaterial :=
  ⟨rfl, rfl⟩

/-- C2: a registered texture tag resolves to the 0-based index of its
first (earliest-registered) matching entry — with the registry built by
appending on success, that index is the tag's registration order — an
unregistered tag resolves to the sentinel `-1`, and a successful
`CreateGLTexture` call appends its entry at the end of the registry. -/
theorem c2_findTextureSlot_registration_order :
    (∀ (l : List TEXTURE_INFO) (tag : String),
        (∀ e ∈ l, e.tag ≠ tag) → FindTextureSlot l tag = -1) ∧
    (∀ (l : List TEXTURE_INFO) (tag : String) (i : Nat) (h : i < l.length),
        (l.get ⟨i, h⟩).tag = tag →
        tag ∉ (l.take i).map TEXTURE_INFO.tag →
        FindTextureSlot l tag = (i : Int)) ∧
    (∀ (l r : List TEXTURE_INFO) (image : ImageData) (textureID : Nat) (tag : String),
        CreateGLTexture l (some image) textureID tag = (true, r) →
        r = l ++ [{ ID := textureID, tag := tag }]) := by
  refine ⟨?_, ?_, ?_⟩
  · intro l tag h
    exact FindTextureSlotLoop_no_match tag l 0 h
  · intro l tag i h hget htake
    have := FindTextureSlotLoop_first_match tag l i 0 h hget htake
    simpa using this
  · intro l r image textureID tag h
    by_cases h3 : image.colorChannels = 3
    · simp [CreateGLTexture, h3] at h
      exact h.symm
    · by_cases h4 : image.colorChannels = 4
      · simp [CreateGLTexture, h3, h4] at h
        exact h.symm
      · simp [CreateGLTexture, h3, h4] at h

theorem c2_witness :
    FindTextureSlot [⟨7, "a.png"⟩, ⟨8, "b.png"⟩] "b.png" = (1 : Int) ∧
    FindTextureSlot [⟨7, "a.png"⟩, ⟨8, "b.png"⟩] "c.png" = -1 :=
  ⟨c2_findTextureSlot_registration_order.2.1 [⟨7, "a.png"⟩, ⟨8, "b.png"⟩] "b.png" 1
      (by decide) (by decide) (by decide),
   c2_findTextureSlot_registration_order.1 [⟨7, "a.png"⟩, ⟨8, "b.png"⟩] "c.png"
      (by decide)⟩

/-- C7: when the decoded image's channel count is neither 3 nor 4,
`CreateGLTexture` returns `false` and the texture registry is unchanged
(no entry appended). -/
theorem c7_bad_channel_count_registers_nothing :
    ∀ (l : List TEXTURE_INFO) (image : ImageData) (textureID : Nat) (tag : String),
      image.colorChannels ≠ 3 → image.colorChannels ≠ 4 →
      CreateGLTexture l (some image) textureID tag = (false, l) := by
  intro l image textureID tag h3 h4
  simp [CreateGLTexture, h3, h4]

theorem c7_witness :
    CreateGLTexture [] (some ⟨64, 64, 2⟩) 5 "gray" = (false, []) :=
  c7_bad_channel_count_registers_nothing [] ⟨64, 64, 2⟩ 5 "gray" (by decide) (by decide)

/-- C9: `FindMaterial`'s boolean result is `false` exactly when the
catalogue is empty — it is `true` for any tag, matched or not, once at
least one material is registered — and on a miss with a non-empty
catalogue the output parameter comes back unmodified despite the `true`
return. -/
theorem c9_findMaterial_bool_reflects_emptiness_only :
    (∀ (mats : List OBJECT_MATERIAL) (tag : String) (material : OBJECT_MATERIAL),
        (FindMaterial mats tag material).1 = false ↔ mats = []) ∧
    (∀ (mats : List OBJECT_MATERIAL) (tag : String) (material : OBJECT_MATERIAL),
        mats ≠ [] → (∀ e ∈ mats, e.tag ≠ tag) →
        FindMaterial mats tag material = (true, material)) := by
  constructor
  · intro mats tag material
    cases mats with
    | nil => simp [FindMaterial]
    | cons entry rest => simp [FindMaterial]
  · intro mats tag material hne h
    have hlen : ¬ mats.length = 0 := by
      simpa [List.length_eq_zero] using hne
    simp [FindMaterial, hlen, FindMaterialLoop_no_match tag material mats h]

theorem c9_witness :
    FindMaterial
      [{ ambientColor := (1, 0, 0), ambientStrength := 1, diffuseColor := (0, 1, 0),
         specularColor := (0, 0, 1), shininess := 2, tag := "metal" }]
      "wood" callerMaterial = (true, callerMaterial) :=
  c9_findMaterial_bool_reflects_emptiness_only.2
    [{ ambientColor := (1, 0, 0), ambientStrength := 1, diffuseColor := (0, 1, 0),
       specularColor := (0, 0, 1), shininess := 2, tag := "metal" }]
    "wood" callerMaterial (by decide) (by decide)

theorem Mouse_Position_Callback_pitch_mem (st : MouseState) (xpos ypos : ℚ) :
    -89 ≤ (Mouse_Position_Callback true st xpos ypos).pitch ∧
      (Mouse_Position_Callback true st xpos ypos).pitch ≤ 89 := by
  simp only [Mouse_Position_Callback]
  norm_num
  split_ifs <;> constructor <;> linarith

theorem scroll_callback_mem (movementSpeed yoffset : ℚ) :
    1/10 ≤ scroll_callback movementSpeed yoffset ∧
      scroll_callback movementSpeed yoffset ≤ 20 := by
  simp only [scroll_callback]
  split_ifs <;> constructor <;> linarith

theorem foldl_scroll_callback_mem (events : List ℚ) :
    ∀ movementSpeed : ℚ, 1/10 ≤ movementSpeed → movementSpeed ≤ 20 →
      1/10 ≤ events.foldl scroll_callback movementSpeed ∧
        events.foldl scroll_callback movementSpeed ≤ 20 := by
  induction events with
  | nil => intro s h1 h2; exact ⟨h1, h2⟩
  | cons a rest ih =>
    intro s h1 h2
    have hb := scroll_callback_mem s a
    simpa [List.foldl] using ih (scroll_callback s a) hb.1 hb.2

theorem norm3_directionVec (yaw pitch : ℚ) : norm3 (directionVec yaw pitch) = 1 := by
  simp only [norm3, directionVec]
  have ha := Real.sin_sq_add_cos_sq (radians yaw)
  have hb := Real.sin_sq_add_cos_sq (radians pitch)
  have key : (Real.cos (radians yaw) * Real.cos (radians pitch)) ^ 2 +
      Real.sin (radians pitch) ^ 2 +
      (Real.sin (radians yaw) * Real.cos (radians pitch)) ^ 2 = 1 := by
    linear_combination (Real.cos (radians pitch)) ^ 2 * ha + hb
  rw [key, Real.sqrt_one]

theorem norm3_normalize3_directionVec (yaw pitch : ℚ) :
    norm3 (normalize3 (directionVec yaw pitch)) = 1 := by
  have h := norm3_directionVec yaw pitch
  simp only [normalize3, h, div_one]

/-- C3: in perspective mode, after every mouse-movement update — at any
point of any sequence of samples — the pitch lies in `[-89, 89]`,
whatever the magnitude or number of the offsets. -/
theorem c3_pitch_always_in_range :
    (∀ (st : MouseState) (xpos ypos : ℚ),
        -89 ≤ (Mouse_Position_Callback true st xpos ypos).pitch ∧
          (Mouse_Position_Callback true st xpos ypos).pitch ≤ 89) ∧
    (∀ (st : MouseState) (samples : List (ℚ × ℚ)) (xpos ypos : ℚ),
        -89 ≤ ((samples ++ [(xpos, ypos)]).foldl
            (fun s p => Mouse_Position_Callback true s p.1 p.2) st).pitch ∧
          ((samples ++ [(xpos, ypos)]).foldl
            (fun s p => Mouse_Position_Callback true s p.1 p.2) st).pitch ≤ 89) := by
  refine ⟨Mouse_Position_Callback_pitch_mem, ?_⟩
  intro st samples xpos ypos
  rw [List.foldl_append]
  exact Mouse_Position_Callback_pitch_mem _ xpos ypos

/-- C4: every scroll update leaves `MovementSpeed` in `[0.1, 20]`; if
the adjusted value would exceed `20` the result is exactly `10`; and
along any non-empty sequence of scroll events starting from a speed of
at least `0.1`, the final speed is at least `0.1` and never in
`(20, ∞)`. -/
theorem c4_movementSpeed_bounds :
    (∀ movementSpeed yoffset : ℚ,
        1/10 ≤ scroll_callback movementSpeed yoffset ∧
          scroll_callback movementSpeed yoffset ≤ 20) ∧
    (∀ movementSpeed yoffset : ℚ,
        20 < movementSpeed + yoffset * (1/10) →
        scroll_callback movementSpeed yoffset = 10) ∧
    (∀ movementSpeed : ℚ, 1/10 ≤ movementSpeed →
        ∀ events : List ℚ, events ≠ [] →
          1/10 ≤ events.foldl scroll_callback movementSpeed ∧
            events.foldl scroll_callback movementSpeed ≤ 20) := by
  refine ⟨scroll_callback_mem, ?_, ?_⟩
  · intro movementSpeed yoffset h
    simp only [scroll_callback]
    split_ifs <;> linarith
  · intro movementSpeed _ events hne
    cases events with
    | nil => exact absurd rfl hne
    | cons a rest =>
      have hb := scroll_callback_mem movementSpeed a
      simpa [List.foldl] using foldl_scroll_callback_mem rest (scroll_callback movementSpeed a) hb.1 hb.2

theorem c4_witness :
    1/10 ≤ [(1 : ℚ)].foldl scroll_callback 10 ∧
      [(1 : ℚ)].foldl scroll_callback 10 ≤ 20 :=
  c4_movementSpeed_bounds.2.2 10 (by norm_num) [1] (by decide)

/-- C8: for a non-first sample in perspective mode the update adds
`(x - lastX) * 0.1` to the yaw, adds `(lastY - y) * 0.1` to the pitch
(exactly, whenever the clamp does not engage), and recomputes the front
vector as the normalization of
`(cos yaw * cos pitch, sin pitch, sin yaw * cos pitch)`; concretely,
from `yaw = -90`, `pitch = 0` a delta of `(100, 0)` yields `yaw = -80`,
and the recomputed front vector has unit length. -/
theorem c8_mouse_update_equations :
    (∀ (st : MouseState) (xpos ypos : ℚ), st.gFirstMouse = false →
        (Mouse_Position_Callback true st xpos ypos).yaw =
          st.yaw + (xpos - st.gLastX) * (1/10)) ∧
    (∀ (st : MouseState) (xpos ypos : ℚ), st.gFirstMouse = false →
        -89 ≤ st.pitch + (st.gLastY - ypos) * (1/10) →
        st.pitch + (st.gLastY - ypos) * (1/10) ≤ 89 →
        (Mouse_Position_Callback true st xpos ypos).pitch =
          st.pitch + (st.gLastY - ypos) * (1/10)) ∧
    (∀ (st : MouseState) (xpos ypos : ℚ) (front : Vec3),
        Mouse_Position_Callback_Front true st xpos ypos front =
          normalize3 (directionVec (Mouse_Position_Callback true st xpos ypos).yaw
            (Mouse_Position_Callback true st xpos ypos).pitch)) ∧
    (Mouse_Position_Callback true ⟨500, 400, false, -90, 0⟩ 600 400).yaw = -80 ∧
    norm3 (Mouse_Position_Callback_Front true ⟨500, 400, false, -90, 0⟩ 600 400
        ⟨0, 0, -1⟩) = 1 := by
  refine ⟨?_, ?_, ?_, ?_, ?_⟩
  · intro st xpos ypos hfm
    simp [Mouse_Position_Callback, hfm]
  · intro st xpos ypos hfm h1 h2
    simp only [Mouse_Position_Callback, hfm]
    norm_num
    split_ifs <;> linarith
  · intro st xpos ypos front
    simp [Mouse_Position_Callback_Front]
  · norm_num [Mouse_Position_Callback]
  · simp only [Mouse_Position_Callback_Front]
    norm_num
    exact norm3_normalize3_directionVec _ _

theorem c8_witness :
    (MouseState.mk 500 400 false (-90) 0).gFirstMouse = false ∧
    (Mouse_Position_Callback true ⟨500, 400, false, -90, 0⟩ 600 400).yaw =
      (MouseState.mk 500 400 false (-90) 0).yaw +
        (600 - (MouseState.mk 500 400 false (-90) 0).gLastX) * (1/10) :=
  ⟨rfl, c8_mouse_update_equations.1 ⟨500, 400, false, -90, 0⟩ 600 400 rfl⟩

theorem moveCamera_Zoom (keys : KeyState) (cameraSpeed : ℝ) (camera : CameraState) :
    (moveCamera keys cameraSpeed camera).Zoom = camera.Zoom := rfl

theorem ProcessKeyboardEvents_Zoom (keys : KeyState) (gDeltaTime : ℝ)
    (perspectiveProjection : Bool) (camera : CameraState) :
    (ProcessKeyboardEvents keys gDeltaTime perspectiveProjection camera).2.Zoom =
      camera.Zoom := by
  simp only [ProcessKeyboardEvents]
  split_ifs <;> simp [moveCamera_Zoom]

/-- C5: in every frame whose keyboard processing leaves the controller
in orthographic mode, `PrepareSceneView` resets the camera position to
`(0, 5, 14)`, the front vector to `(0, -0.2, -1)` and the up vector to
`(0, 1, 0)`, discarding whatever pose the perspective-mode movement had
accumulated. -/
theorem c5_ortho_resets_camera_pose :
    ∀ (keys : KeyState) (gDeltaTime : ℝ) (perspectiveProjection : Bool)
      (camera : CameraState),
      (PrepareSceneView keys gDeltaTime perspectiveProjection camera).1 = false →
      (PrepareSceneView keys gDeltaTime perspectiveProjection camera).2.1.Position =
          ⟨0, 5, 14⟩ ∧
        (PrepareSceneView keys gDeltaTime perspectiveProjection camera).2.1.Front =
          ⟨0, -(1/5), -1⟩ ∧
        (PrepareSceneView keys gDeltaTime perspectiveProjection camera).2.1.Up =
          ⟨0, 1, 0⟩ := by
  intro keys gDeltaTime perspectiveProjection camera h
  simp only [PrepareSceneView] at h ⊢
  simp [h]

theorem c5_witness :
    ((PrepareSceneView ⟨false, false, true, false, false, false, false, false, false⟩
        0 true ⟨⟨0, 33/10, 12⟩, ⟨0, -(1/2), -2⟩, ⟨0, 1, 0⟩, 80, 2⟩).1 = false) ∧
    (PrepareSceneView ⟨false, false, true, false, false, false, false, false, false⟩
        0 true ⟨⟨0, 33/10, 12⟩, ⟨0, -(1/2), -2⟩, ⟨0, 1, 0⟩, 80, 2⟩).2.1.Position =
      ⟨0, 5, 14⟩ ∧
    (PrepareSceneView ⟨false, false, true, false, false, false, false, false, false⟩
        0 true ⟨⟨0, 33/10, 12⟩, ⟨0, -(1/2), -2⟩, ⟨0, 1, 0⟩, 80, 2⟩).2.1.Front =
      ⟨0, -(1/5), -1⟩ ∧
    (PrepareSceneView ⟨false, false, true, false, false, false, false, false, false⟩
        0 true ⟨⟨0, 33/10, 12⟩, ⟨0, -(1/2), -2⟩, ⟨0, 1, 0⟩, 80, 2⟩).2.1.Up =
      ⟨0, 1, 0⟩ :=
  ⟨rfl, c5_ortho_resets_camera_pose _ 0 true _ rfl⟩

/-- C6: in every frame and in both projection modes, the projection
finally uploaded is the perspective projection built from the camera's
current zoom as vertical field of view, aspect ratio `1000/800` and
near/far planes `0.1`/`100`; the assignment is unconditional after the
mode branch, so the orthographic branch's matrix is always
overwritten. -/
theorem c6_projection_always_from_zoom :
    ∀ (keys : KeyState) (gDeltaTime : ℝ) (perspectiveProjection : Bool)
      (camera : CameraState),
      (PrepareSceneView keys gDeltaTime perspectiveProjection camera).2.2 =
        GlmPerspective.mk camera.Zoom (1000/800) (1/10) 100 := by
  intro keys gDeltaTime perspectiveProjection camera
  simp only [PrepareSceneView]
  split_ifs <;> simp [ProcessKeyboardEvents_Zoom]

/-- C10: the P-key check precedes the O-key check with no `else`
between them, so a frame with both keys held ends in orthographic mode;
and holding P while already in perspective mode, or O while already in
orthographic mode, leaves the mode unchanged. -/
theorem c10_p_then_o_key_precedence :
    (∀ (escapeKey wKey sKey aKey dKey qKey eKey : Bool) (gDeltaTime : ℝ)
        (perspectiveProjection : Bool) (camera : CameraState),
        (ProcessKeyboardEvents
            ⟨escapeKey, true, true, wKey, sKey, aKey, dKey, qKey, eKey⟩
            gDeltaTime perspectiveProjection camera).1 = false) ∧
    (∀ (escapeKey wKey sKey aKey dKey qKey eKey : Bool) (gDeltaTime : ℝ)
        (camera : CameraState),
        (ProcessKeyboardEvents
            ⟨escapeKey, true, false, wKey, sKey, aKey, dKey, qKey, eKey⟩
            gDeltaTime true camera).1 = true) ∧
    (∀ (escapeKey wKey sKey aKey dKey qKey eKey : Bool) (gDeltaTime : ℝ)
        (camera : CameraState),
        (ProcessKeyboardEvents
            ⟨escapeKey, false, true, wKey, sKey, aKey, dKey, qKey, eKey⟩
            gDeltaTime false camera).1 = false) := by
  refine ⟨?_, ?_, ?_⟩ <;>
    · intro escapeKey wKey sKey aKey dKey qKey eKey gDeltaTime
      intros
      simp only [ProcessKeyboardEvents]
      split_ifs <;> first | rfl | assumption
